import Mathlib

/-
Verification of the session-management and admin form-binding core of the
Amazon-Clone repository (src/app.py), as a shallow embedding in Lean 4.

Modelling conventions:
  * MongoDB collections become Lean lists; the whole database is a `Store`.
  * Timestamps are natural numbers (seconds); `datetime.utcnow()` becomes an
    explicit `now` parameter threaded into each operation, and the 24-hour
    session lifetime becomes `24 * 3600`.
  * Fresh ObjectId generation (`str(ObjectId())`) becomes an explicit `newId`
    parameter: the generator is an external source of unique opaque strings.
  * Entities handled by the generic admin binder are association lists from
    field names to typed `Value`s; `setattr` is `Entity.set`, attribute reads
    are `Entity.get?` and friends.
  * `werkzeug.security.generate_password_hash` is a black-box one-way hash,
    modelled as an injective tagging function whose verifier compares hashes.
  * Python exceptions become `Except String` results; the exact exception
    message of mongoengine DoesNotExist is reproduced, the message of
    FieldDoesNotExist is reproduced up to quoting.
  * `float(value)` never needs its numeric result in the properties below, so
    a numeric field stores the accepted source string (`Value.num`); the
    acceptance test `pyFloatOk` models the plain decimal forms of Python
    float parsing (sign, digits, at most one decimal point).
  * mongoengine validation, default filling and `clean` hooks on `save` are
    outside the properties below and are not modelled; `save` inserts or
    replaces the document in its collection.
  * Form data (a dict of string keys to string values) is an association list
    with distinct keys, iterated in order as the Python loop does.
  * `hasattr(obj, f)` for a document instance is modelled as: f is a declared
    field of the document class (form field names never collide with method
    names in this admin panel).
-/

/-- Typed field values stored on an entity. `ref coll i` is a resolved
reference into collection `coll` with identifier `i` (the binder stores the
looked-up document; the document is determined by its id). `num raw` carries
the accepted source text of `float(raw)`. `strList` holds seeded list data
such as product tags. `time` is a datetime value. -/
inductive Value
  | s (v : String)
  | num (raw : String)
  | b (v : Bool)
  | ref (coll : String) (i : String)
  | strList (v : List String)
  | time (t : Nat)
  deriving DecidableEq

/-- An entity (mongoengine document) as an association list of field values. -/
abbrev Entity := List (String × Value)

/-- First value bound to field `f`, if any (attribute read). -/
def Entity.get? (e : Entity) (f : String) : Option Value :=
  match e.find? (fun fv => fv.1 == f) with
  | some fv => some fv.2
  | none => none

/-- String read of a field, empty when absent or not a string. -/
def Entity.getStr (e : Entity) (f : String) : String :=
  match Entity.get? e f with
  | some (Value.s v) => v
  | _ => ""

/-- Boolean read of a field, false when absent or not a boolean. -/
def Entity.getBool (e : Entity) (f : String) : Bool :=
  match Entity.get? e f with
  | some (Value.b v) => v
  | _ => false

/-- The primary key of a document. -/
def Entity.id (e : Entity) : String := Entity.getStr e ("id")

/-- `setattr`: replace the binding of `f`, or append it when absent. -/
def Entity.set : Entity → String → Value → Entity
  | [], f, v => [(f, v)]
  | fv :: rest, f, v => if fv.1 = f then (f, v) :: rest else fv :: Entity.set rest f v

/-- A Session document (class Session in src/app.py): token, optional owning
user, class (user or admin), authenticated flag, cached payload, creation and
expiry timestamps. -/
structure SessionRec where
  session_id : String
  user_id : Option String
  session_type : String
  is_authenticated : Bool
  user_data : List (String × String)
  created_at : Nat
  expires_at : Nat
  deriving DecidableEq

/-- `Session.is_expired`: `datetime.utcnow() > self.expires_at`. -/
def SessionRec.is_expired (s : SessionRec) (now : Nat) : Bool :=
  decide (s.expires_at < now)

/-- The document database: one list per collection used by the admin panel,
plus the sessions collection. -/
structure Store where
  categories : List Entity
  products : List Entity
  users : List Entity
  orders : List Entity
  sessions : List SessionRec
  deriving DecidableEq

def emptyStore : Store := ⟨[], [], [], [], []⟩

/-- The collection an admin model name denotes. -/
def Store.coll (st : Store) (m : String) : List Entity :=
  if m = ("products") then st.products
  else if m = ("categories") then st.categories
  else if m = ("users") then st.users
  else if m = ("orders") then st.orders
  else []

/-- Write back a collection under an admin model name. -/
def Store.setColl (st : Store) (m : String) (l : List Entity) : Store :=
  if m = ("products") then { st with products := l }
  else if m = ("categories") then { st with categories := l }
  else if m = ("users") then { st with users := l }
  else if m = ("orders") then { st with orders := l }
  else st

/-- `Model.objects(id=i).first()` on a collection. -/
def findById (l : List Entity) (i : String) : Option Entity :=
  l.find? (fun e => Entity.id e == i)

/-- `obj.save()` for an existing document: replace the document with that id. -/
def replaceById (l : List Entity) (i : String) (e : Entity) : List Entity :=
  l.map (fun x => if Entity.id x = i then e else x)

/-- `Session.objects(session_id=sid).first()`. -/
def findSession (st : Store) (sid : String) : Option SessionRec :=
  st.sessions.find? (fun s => s.session_id == sid)

/-- `session.delete()` inside verify: remove that one document. -/
def eraseFirstSession : List SessionRec → String → List SessionRec
  | [], _ => []
  | s :: rest, sid => if s.session_id = sid then rest else s :: eraseFirstSession rest sid

def eraseSessionDoc (st : Store) (sid : String) : Store :=
  { st with sessions := eraseFirstSession st.sessions sid }

/-- `SessionManager.create_session`: persist a new session with
`is_authenticated=True` and the default 24 hour expiry, returning its token. -/
def SessionManager.create_session (st : Store) (now : Nat) (newId : String)
    (user_id : Option String) (session_type : String)
    (user_data : List (String × String)) : Store × String :=
  ({ st with sessions := st.sessions ++
      [⟨newId, user_id, session_type, true, user_data, now, now + 24 * 3600⟩] }, newId)

/-- `SessionManager.verify_session`: false on empty or unknown token; an
expired session is deleted as a side effect and rejected; a class mismatch is
rejected without deletion; otherwise the stored authenticated flag. -/
def SessionManager.verify_session (st : Store) (now : Nat) (session_id : String)
    (session_type : Option String) : Bool × Store :=
  if session_id = ("") then (false, st)
  else
    match findSession st session_id with
    | none => (false, st)
    | some s =>
      if SessionRec.is_expired s now then (false, eraseSessionDoc st session_id)
      else
        match session_type with
        | some t => if s.session_type ≠ t then (false, st) else (s.is_authenticated, st)
        | none => (s.is_authenticated, st)

/-- The payload `fetch` returns. -/
structure SessionData where
  user_id : Option String
  session_type : String
  user_data : List (String × String)
  deriving DecidableEq

/-- `SessionManager.get_session_data`: the session payload when the token is
known and unexpired, none otherwise; the store is returned unchanged (no
lazy deletion here, unlike verify). -/
def SessionManager.get_session_data (st : Store) (now : Nat) (session_id : String) :
    Option SessionData × Store :=
  match findSession st session_id with
  | some s =>
    if !(SessionRec.is_expired s now) then
      (some ⟨s.user_id, s.session_type, s.user_data⟩, st)
    else (none, st)
  | none => (none, st)

/-- One-way password hash (werkzeug `generate_password_hash`), black box. -/
def generate_password_hash (pw : String) : String :=
  ("pbkdf2-sha256$") ++ pw

/-- werkzeug `check_password_hash`: verify a password against a stored hash. -/
def check_password_hash (h pw : String) : Bool :=
  h == generate_password_hash pw

/-- `UserAuth.verify_credentials` looks the login value up first among
usernames, then among email addresses. -/
def lookupUserByUsernameOrEmail (st : Store) (username : String) : Option Entity :=
  match st.users.find? (fun u => Entity.getStr u ("username") == username) with
  | some u => some u
  | none => st.users.find? (fun u => Entity.getStr u ("email") == username)

/-- `UserAuth.verify_credentials`: the user when the password matches and the
account is active, none otherwise. -/
def UserAuth.verify_credentials (st : Store) (username password : String) : Option Entity :=
  match lookupUserByUsernameOrEmail st username with
  | none => none
  | some u =>
    if !(check_password_hash (Entity.getStr u ("password_hash")) password) then none
    else if !(Entity.getBool u ("is_active")) then none
    else some u

/-- `UserAuth.create_session`: a user-class session with payload user_type=user. -/
def UserAuth.create_session (st : Store) (now : Nat) (newId : String) (uid : String) :
    Store × String :=
  SessionManager.create_session st now newId (some uid) ("user") [(("user_type"), ("user"))]

/-- The distinguishable failure kinds of `AdminAuth.login` (HTTPException). -/
inductive AdminLoginErr
  | badRequest
  | notFound
  | invalidPassword
  | forbidden
  deriving DecidableEq

/-- The user-facing detail string of each `AdminAuth.login` failure. -/
def adminErrDetail : AdminLoginErr → String
  | AdminLoginErr.badRequest => "Username and password are required"
  | AdminLoginErr.notFound => "User not found"
  | AdminLoginErr.invalidPassword => "Invalid password"
  | AdminLoginErr.forbidden => "Insufficient privileges"

/-- `AdminAuth.login`: username lookup, hash check, then the admin privilege
check against `user_type`. -/
def AdminAuth.login (st : Store) (username password : String) : Except AdminLoginErr Bool :=
  if username = ("") ∨ password = ("") then Except.error AdminLoginErr.badRequest
  else
    match st.users.find? (fun u => Entity.getStr u ("username") == username) with
    | none => Except.error AdminLoginErr.notFound
    | some u =>
      if !(check_password_hash (Entity.getStr u ("password_hash")) password) then
        Except.error AdminLoginErr.invalidPassword
      else if Entity.getStr u ("user_type") ≠ ("admin") then
        Except.error AdminLoginErr.forbidden
      else Except.ok true

/-- `AdminAuth.create_session`: an admin-class session, payload user_type=admin. -/
def AdminAuth.create_session (st : Store) (now : Nat) (newId : String) (uid : String) :
    Store × String :=
  SessionManager.create_session st now newId (some uid) ("admin") [(("user_type"), ("admin"))]

/-- Outcome of the POST /login route. -/
inductive UserLoginResult
  | errorPage (error : String)
  | redirect (session_id : String)
  deriving DecidableEq

/-- The `login_user` route: on valid credentials, stamp `last_login`, save the
user, create a user session and redirect with its token; otherwise re-render
the login form with the error message and leave the store unchanged. -/
def login_user (st : Store) (now : Nat) (newId : String) (username password : String) :
    UserLoginResult × Store :=
  match UserAuth.verify_credentials st username password with
  | none => (UserLoginResult.errorPage ("Invalid username or password"), st)
  | some u =>
    let u2 := Entity.set u ("last_login") (Value.time now)
    let st1 := { st with users := replaceById st.users (Entity.id u) u2 }
    let r := UserAuth.create_session st1 now newId (Entity.id u)
    (UserLoginResult.redirect r.2, r.1)

/-- Outcome of the POST /admin route. -/
inductive AdminLoginResult
  | errorPage (detail : String)
  | redirect (session_id : String)
  | serverError
  deriving DecidableEq

/-- The `admin_login` route: on success, create an admin session for the user
and redirect with its token; an HTTPException from `AdminAuth.login` becomes a
re-rendered login page carrying its detail. The route reads the user again by
username after login succeeds; the unreachable case where that lookup fails
would crash on `user.id` (serverError). It never writes the user document. -/
def admin_login (st : Store) (now : Nat) (newId : String) (username password : String) :
    AdminLoginResult × Store :=
  match AdminAuth.login st username password with
  | Except.error e => (AdminLoginResult.errorPage (adminErrDetail e), st)
  | Except.ok _ =>
    match st.users.find? (fun u => Entity.getStr u ("username") == username) with
    | none => (AdminLoginResult.serverError, st)
    | some u =>
      let r := AdminAuth.create_session st now newId (Entity.id u)
      (AdminLoginResult.redirect r.2, r.1)

/-- How the binder dispatches on a field: mongoengine class of the attribute.
`reference` covers ReferenceField and ObjectIdField, `numeric` covers
DecimalField and IntField, `boolean` is BooleanField, and `other` is every
remaining attribute class (StringField, EmailField, URLField, ListField,
DictField, DateTimeField, embedded document lists), which the binder stores
as the raw string. -/
inductive FieldKind
  | reference
  | numeric
  | boolean
  | other
  deriving DecidableEq

/-- Classify a field name against four lists of field names. -/
def kindOf (refs nums bools others : List String) (f : String) : Option FieldKind :=
  if f ∈ refs then some FieldKind.reference
  else if f ∈ nums then some FieldKind.numeric
  else if f ∈ bools then some FieldKind.boolean
  else if f ∈ others then some FieldKind.other
  else none

/-- Field classification of the Product document (src/app.py class Product).
`id` is the automatic ObjectIdField primary key. -/
def productField (f : String) : Option FieldKind :=
  kindOf ["category", "id"]
    ["price", "sale_price", "cost_price", "stock_quantity", "low_stock_threshold",
     "average_rating", "review_count", "weight"]
    ["manage_stock", "allow_backorders", "has_variants", "is_active", "is_featured",
     "is_digital"]
    ["name", "slug", "description", "short_description", "sku", "brand", "tags",
     "price_history", "variants", "images", "primary_image", "specifications",
     "reviews", "dimensions", "shipping_class", "meta_title", "meta_description",
     "meta_keywords", "created_at", "updated_at", "published_at"]
    f

/-- Field classification of the Category document (src/app.py class Category). -/
def categoryField (f : String) : Option FieldKind :=
  kindOf ["parent_category", "id"]
    ["display_order"]
    ["is_active"]
    ["name", "slug", "description", "image_url", "meta_title", "meta_description",
     "created_at", "updated_at"]
    f

/-- Field classification of the User document (src/app.py class User). Note
there is no `password` attribute (only `password_hash`), and the admin marker
is the string field `user_type`, not a boolean. -/
def userField (f : String) : Option FieldKind :=
  kindOf ["default_shipping_address", "default_billing_address", "id"]
    []
    ["is_active", "is_verified"]
    ["username", "email", "password_hash", "first_name", "last_name", "phone",
     "addresses", "email_preferences", "user_type", "last_login", "created_at",
     "updated_at"]
    f

/-- Field classification of the Order document (src/app.py class Order). -/
def orderField (f : String) : Option FieldKind :=
  kindOf ["user", "id"]
    ["subtotal", "shipping_cost", "tax_amount", "discount_amount", "total_amount"]
    []
    ["order_number", "email", "items", "shipping_address", "billing_address",
     "payment_method", "payment_status", "transaction_id", "shipping_method",
     "tracking_number", "shipping_status", "status", "notes", "created_at",
     "updated_at", "completed_at"]
    f

/-- `getattr(config.model, field_name, None)` classified by the isinstance
dispatch of the binder, for each registered admin model name. -/
def fieldKind (m f : String) : Option FieldKind :=
  if m = ("products") then productField f
  else if m = ("categories") then categoryField f
  else if m = ("users") then userField f
  else if m = ("orders") then orderField f
  else none

/-- The keys of ADMIN_MODELS. -/
def adminModelNames : List String := ["products", "categories", "users", "orders"]

/-- Python truthiness of a form value: `bool(value)` on a string is true
exactly when the string is non-empty. -/
def pyBool (s : String) : Bool := decide (¬ s = (""))

/-- Acceptance of `float(value)` on a form input, for the plain decimal forms:
surrounding whitespace, an optional sign, then digits with at most one decimal
point and at least one digit. -/
def pyFloatOk (s : String) : Bool :=
  let t := s.trim
  let core := if t.startsWith ("+") || t.startsWith ("-") then t.drop 1 else t
  !core.isEmpty && core.all (fun c => c.isDigit || c == '.') &&
    Nat.ble (core.toList.countP (fun c => c == '.')) 1 &&
    core.any (fun c => c.isDigit)

/-- `Model.objects.get(id=i)`: the document, or the DoesNotExist message. -/
def objectsGet (coll : List Entity) (doc : String) (i : String) : Except String Entity :=
  match findById coll i with
  | some e => Except.ok e
  | none => Except.error (doc ++ (" matching query does not exist."))

/-- One iteration of the create-route field loop of `admin_model_create`:
skip the reserved csrf_token key; a reference field resolves a non-empty value
through the fixed field-to-collection table (category on products, user on
orders) and stays silent otherwise; a numeric field parses the value as a
float with empty meaning zero; a boolean field takes Python truthiness of the
value; everything else (including an unknown attribute) stores the raw string
into the object data. -/
def bindOneCreate (st : Store) (modelName : String) (acc : Entity)
    (fieldName value : String) : Except String Entity :=
  if fieldName = ("csrf_token") then Except.ok acc
  else
    match fieldKind modelName fieldName with
    | some FieldKind.reference =>
      if value = ("") then Except.ok acc
      else if fieldName = ("category") ∧ modelName = ("products") then
        match objectsGet st.categories ("Category") value with
        | Except.ok e => Except.ok (Entity.set acc fieldName (Value.ref ("categories") (Entity.id e)))
        | Except.error msg => Except.error msg
      else if fieldName = ("user") ∧ modelName = ("orders") then
        match objectsGet st.users ("User") value with
        | Except.ok e => Except.ok (Entity.set acc fieldName (Value.ref ("users") (Entity.id e)))
        | Except.error msg => Except.error msg
      else Except.ok acc
    | some FieldKind.numeric =>
      if value = ("") then Except.ok (Entity.set acc fieldName (Value.num ("0")))
      else if pyFloatOk value then Except.ok (Entity.set acc fieldName (Value.num value))
      else Except.error (("could not convert string to float: ") ++ value)
    | some FieldKind.boolean => Except.ok (Entity.set acc fieldName (Value.b (pyBool value)))
    | some FieldKind.other => Except.ok (Entity.set acc fieldName (Value.s value))
    | none => Except.ok (Entity.set acc fieldName (Value.s value))

/-- The create-route field loop over all form fields. -/
def bindCreateLoop (st : Store) (m : String) : Entity → List (String × String) → Except String Entity
  | acc, [] => Except.ok acc
  | acc, fv :: rest =>
    match bindOneCreate st m acc fv.1 fv.2 with
    | Except.ok acc2 => bindCreateLoop st m acc2 rest
    | Except.error e => Except.error e

/-- The mongoengine document class name of an admin model name. -/
def docName (m : String) : String :=
  if m = ("products") then "Product"
  else if m = ("categories") then "Category"
  else if m = ("users") then "User"
  else if m = ("orders") then "Order"
  else m

/-- `config.model(**obj_data)`: the constructor raises FieldDoesNotExist when
some key is not a declared field of the document (modelled on the first such
key); otherwise the document holds exactly the bound data. -/
def mkObject (m : String) (objData : Entity) : Except String Entity :=
  match objData.find? (fun fv => (fieldKind m fv.1).isNone) with
  | some fv => Except.error ((("The fields ") ++ fv.1) ++ ((" do not exist on the document ") ++ docName m))
  | none => Except.ok objData

/-- One iteration of the update-route field loop of `admin_model_update`.
Identical dispatch to the create loop, with two differences taken from the
source: a field name that is not an attribute of the object is skipped
entirely (`hasattr` guard), and coerced values are written onto the existing
object with `setattr`. An empty reference value does nothing, leaving the
stored reference unchanged. -/
def bindOneUpdate (st : Store) (modelName : String) (obj : Entity)
    (fieldName value : String) : Except String Entity :=
  if fieldName = ("csrf_token") then Except.ok obj
  else
    match fieldKind modelName fieldName with
    | none => Except.ok obj
    | some FieldKind.reference =>
      if value = ("") then Except.ok obj
      else if fieldName = ("category") ∧ modelName = ("products") then
        match objectsGet st.categories ("Category") value with
        | Except.ok e => Except.ok (Entity.set obj fieldName (Value.ref ("categories") (Entity.id e)))
        | Except.error msg => Except.error msg
      else if fieldName = ("user") ∧ modelName = ("orders") then
        match objectsGet st.users ("User") value with
        | Except.ok e => Except.ok (Entity.set obj fieldName (Value.ref ("users") (Entity.id e)))
        | Except.error msg => Except.error msg
      else Except.ok obj
    | some FieldKind.numeric =>
      if value = ("") then Except.ok (Entity.set obj fieldName (Value.num ("0")))
      else if pyFloatOk value then Except.ok (Entity.set obj fieldName (Value.num value))
      else Except.error (("could not convert string to float: ") ++ value)
    | some FieldKind.boolean => Except.ok (Entity.set obj fieldName (Value.b (pyBool value)))
    | some FieldKind.other => Except.ok (Entity.set obj fieldName (Value.s value))

/-- The update-route field loop. A Python exception thrown mid-loop leaves the
in-memory object with the mutations applied so far; the error case therefore
carries both the message and that partially mutated object, which the except
branch of the route hands to the re-rendered template. -/
def bindUpdateLoop (st : Store) (m : String) : Entity → List (String × String) → Except (String × Entity) Entity
  | obj, [] => Except.ok obj
  | obj, fv :: rest =>
    match bindOneUpdate st m obj fv.1 fv.2 with
    | Except.ok obj2 => bindUpdateLoop st m obj2 rest
    | Except.error e => Except.error (e, obj)

/-- The template context of a re-rendered admin model form: the error message,
the `object` key (update route only) and the `form_data` key (create route
only, carrying the original string form values). -/
structure FormPage where
  error : String
  object : Option Entity
  form_data : Option (List (String × String))
  deriving DecidableEq

/-- Outcome of the admin model create and update routes. `redirectLogin` is the
failed session guard; `notFoundModel` the 404 on an unregistered model name;
`redirectList m` the 302 back to the model listing after a successful save;
`page ctx` a re-rendered form; `serverError` the uncaught NameError of the
update except-branch when the target object was never fetched. -/
inductive AdminResult
  | redirectLogin
  | notFoundModel
  | redirectList (m : String)
  | page (ctx : FormPage)
  | serverError
  deriving DecidableEq

/-- The `admin_model_create` route: admin session guard, registry check, the
create field loop, the document constructor, then save (insert). Any exception
aborts with nothing persisted and re-renders the form with the error and the
original string form values. -/
def admin_model_create (st : Store) (now : Nat) (sid modelName : String)
    (form : List (String × String)) : AdminResult × Store :=
  let vr := SessionManager.verify_session st now sid (some ("admin"))
  if !vr.1 then (AdminResult.redirectLogin, vr.2)
  else if modelName ∉ adminModelNames then (AdminResult.notFoundModel, vr.2)
  else
    match bindCreateLoop vr.2 modelName [] form with
    | Except.error e => (AdminResult.page ⟨e, none, some form⟩, vr.2)
    | Except.ok objData =>
      match mkObject modelName objData with
      | Except.error e => (AdminResult.page ⟨e, none, some form⟩, vr.2)
      | Except.ok obj =>
        (AdminResult.redirectList modelName,
         Store.setColl vr.2 modelName (Store.coll vr.2 modelName ++ [obj]))

/-- The `admin_model_update` route: admin session guard, registry check, fetch
of the target object, the update field loop, then save (replace). An exception
mid-loop aborts with nothing persisted and re-renders the form with the error
and the partially mutated in-memory object; the original form values are not
part of that context. -/
def admin_model_update (st : Store) (now : Nat) (sid modelName objId : String)
    (form : List (String × String)) : AdminResult × Store :=
  let vr := SessionManager.verify_session st now sid (some ("admin"))
  if !vr.1 then (AdminResult.redirectLogin, vr.2)
  else if modelName ∉ adminModelNames then (AdminResult.notFoundModel, vr.2)
  else
    match findById (Store.coll vr.2 modelName) objId with
    | none => (AdminResult.serverError, vr.2)
    | some obj0 =>
      match bindUpdateLoop vr.2 modelName obj0 form with
      | Except.ok obj2 =>
        (AdminResult.redirectList modelName,
         Store.setColl vr.2 modelName (replaceById (Store.coll vr.2 modelName) objId obj2))
      | Except.error ep => (AdminResult.page ⟨ep.1, some ep.2, none⟩, vr.2)

/-- C4: `verify(token, expected_class)` returns false on an empty token and on
an unknown token; an existing but expired session is deleted as a side effect
and rejected; with a present, mismatching expected class the session is
rejected without deletion; otherwise the stored `is_authenticated` flag is
returned and the store is untouched. -/
theorem C4_verify_session_contract (st : Store) (now : Nat) (sid : String) (et : Option String) :
    (SessionManager.verify_session st now ("") et = (false, st)) ∧
    (sid ≠ ("") → findSession st sid = none →
        SessionManager.verify_session st now sid et = (false, st)) ∧
    (∀ s, sid ≠ ("") → findSession st sid = some s → s.expires_at < now →
        SessionManager.verify_session st now sid et = (false, eraseSessionDoc st sid)) ∧
    (∀ s t, sid ≠ ("") → findSession st sid = some s → ¬ s.expires_at < now → et = some t →
        s.session_type ≠ t →
        SessionManager.verify_session st now sid et = (false, st)) ∧
    (∀ s, sid ≠ ("") → findSession st sid = some s → ¬ s.expires_at < now →
        (∀ t, et = some t → s.session_type = t) →
        SessionManager.verify_session st now sid et = (s.is_authenticated, st)) := by
  refine ⟨?_, ?_, ?_, ?_, ?_⟩
  · simp [SessionManager.verify_session]
  · intro hs h
    simp [SessionManager.verify_session, hs, h]
  · intro s hs h hexp
    simp [SessionManager.verify_session, hs, h, SessionRec.is_expired, hexp]
  · intro s t hs h hexp het hne
    subst het
    simp [SessionManager.verify_session, hs, h, SessionRec.is_expired, hexp, hne]
  · intro s hs h hexp hcl
    cases et with
    | none => simp [SessionManager.verify_session, hs, h, SessionRec.is_expired, hexp]
    | some t =>
      have hcl2 := hcl t rfl
      simp [SessionManager.verify_session, hs, h, SessionRec.is_expired, hexp, hcl2]

def c4Sess : SessionRec := ⟨("sx"), none, ("admin"), true, [], 0, 50⟩

def c4Store : Store := { emptyStore with sessions := [c4Sess] }

/-- C4 witness: a session that expired at time 50, verified at time 100, is
rejected and deleted from the store. -/
theorem C4_witness :
    SessionManager.verify_session c4Store 100 ("sx") (some ("admin")) =
      (false, eraseSessionDoc c4Store ("sx")) :=
  (C4_verify_session_contract c4Store 100 ("sx") (some ("admin"))).2.2.1 c4Sess
    (by decide) (by decide) (by decide)

/-- C9: `fetch(token)` (get_session_data) yields none when the token is
unknown and when the session is expired, and in both cases hands back the
store exactly as it was: the expired record is not deleted, unlike verify. -/
theorem C9_get_session_data_contract (st : Store) (now : Nat) (sid : String) :
    (findSession st sid = none → SessionManager.get_session_data st now sid = (none, st)) ∧
    (∀ s, findSession st sid = some s → s.expires_at < now →
        SessionManager.get_session_data st now sid = (none, st)) := by
  constructor
  · intro h
    simp [SessionManager.get_session_data, h]
  · intro s h hexp
    simp [SessionManager.get_session_data, h, SessionRec.is_expired, hexp]

def c9Sess : SessionRec := ⟨("sy"), some ("u7"), ("user"), true, [(("user_type"), ("user"))], 0, 40⟩

def c9Store : Store := { emptyStore with sessions := [c9Sess] }

/-- C9 witness: fetching a session that expired at time 40, at time 100,
yields none and the store, expired record included, is unchanged. -/
theorem C9_witness :
    SessionManager.get_session_data c9Store 100 ("sy") = (none, c9Store) :=
  (C9_get_session_data_contract c9Store 100 ("sy")).2 c9Sess (by decide) (by decide)

/-- C10: the login value is matched first against usernames and only on a miss
against email addresses; an identity whose is_active flag is false is rejected
by verify_credentials, and the login route then creates no session and leaves
the store unchanged. -/
theorem C10_credentials_contract (st : Store) (uname pw : String) :
    (∀ u, st.users.find? (fun x => Entity.getStr x ("username") == uname) = some u →
        lookupUserByUsernameOrEmail st uname = some u) ∧
    (st.users.find? (fun x => Entity.getStr x ("username") == uname) = none →
        lookupUserByUsernameOrEmail st uname =
          st.users.find? (fun x => Entity.getStr x ("email") == uname)) ∧
    (∀ u, lookupUserByUsernameOrEmail st uname = some u →
        Entity.getBool u ("is_active") = false →
        UserAuth.verify_credentials st uname pw = none) ∧
    (∀ now nid, UserAuth.verify_credentials st uname pw = none →
        login_user st now nid uname pw =
          (UserLoginResult.errorPage ("Invalid username or password"), st)) := by
  refine ⟨?_, ?_, ?_, ?_⟩
  · intro u h
    simp [lookupUserByUsernameOrEmail, h]
  · intro h
    simp [lookupUserByUsernameOrEmail, h]
  · intro u h hact
    simp [UserAuth.verify_credentials, h, hact]
  · intro now nid h
    simp [login_user, h]

def c10Bob : Entity :=
  [(("id"), Value.s ("u9")), (("username"), Value.s ("bob")),
   (("email"), Value.s ("bob@example.com")),
   (("password_hash"), Value.s (generate_password_hash ("bobpw"))),
   (("is_active"), Value.b false), (("user_type"), Value.s ("user"))]

def c10Store : Store := { emptyStore with users := [c10Bob] }

/-- C10 witness: an inactive user with the correct password is rejected and no
session is created by the login route. -/
theorem C10_witness :
    UserAuth.verify_credentials c10Store ("bob") ("bobpw") = none ∧
    login_user c10Store 5 ("n1") ("bob") ("bobpw") =
      (UserLoginResult.errorPage ("Invalid username or password"), c10Store) := by
  constructor
  · exact (C10_credentials_contract c10Store ("bob") ("bobpw")).2.2.1 c10Bob (by decide) (by decide)
  · exact (C10_credentials_contract c10Store ("bob") ("bobpw")).2.2.2 5 ("n1")
      ((C10_credentials_contract c10Store ("bob") ("bobpw")).2.2.1 c10Bob (by decide) (by decide))

def adminRoot : Entity :=
  [(("id"), Value.s ("a1")), (("username"), Value.s ("root")),
   (("email"), Value.s ("root@example.com")),
   (("password_hash"), Value.s (generate_password_hash ("rootpw"))),
   (("is_active"), Value.b true), (("user_type"), Value.s ("admin"))]

def adminSess : SessionRec :=
  ⟨("sa"), some ("a1"), ("admin"), true, [(("user_type"), ("admin"))], 0, 86400⟩

def c1User : Entity :=
  [(("id"), Value.s ("u1")), (("username"), Value.s ("alice")),
   (("email"), Value.s ("alice@example.com")),
   (("password_hash"), Value.s ("h0")),
   (("is_active"), Value.b true), (("user_type"), Value.s ("user"))]

def c1Store : Store :=
  { emptyStore with users := [adminRoot, c1User], sessions := [adminSess] }

/-- C1 counterexample: an admin update of a user submitting the raw password
field with value newpw succeeds as a plain update in which the field is simply
skipped; the stored hash h0 is untouched and is not the hash of the submitted
password, so the binder neither hashed the raw password nor stored anything
under the password-hash attribute, contrary to the claim. -/
theorem C1_counterexample :
    admin_model_update c1Store 100 ("sa") ("users") ("u1")
        [(("password"), ("newpw"))] =
      (AdminResult.redirectList ("users"), c1Store) ∧
    Entity.getStr c1User ("password_hash") = ("h0") ∧
    generate_password_hash ("newpw") ≠ ("h0") := by
  refine ⟨by decide, by decide, by decide⟩

/-- C1 amended: the binder has no password handling at all. At update, a field
named password is skipped because the user document has no such attribute, so
the stored hash is left unchanged; a value submitted under password_hash is
stored verbatim without hashing; at create, a password key is put into the
object data as a raw string and then makes the whole constructor fail with a
field-does-not-exist error. -/
theorem C1_amended_no_password_handling (st : Store) (obj acc : Entity) (v : String) :
    bindOneUpdate st ("users") obj ("password") v = Except.ok obj ∧
    bindOneUpdate st ("users") obj ("password_hash") v =
      Except.ok (Entity.set obj ("password_hash") (Value.s v)) ∧
    bindOneCreate st ("users") acc ("password") v =
      Except.ok (Entity.set acc ("password") (Value.s v)) ∧
    (∀ rest, mkObject ("users") ((("password"), Value.s v) :: rest) =
        Except.error ((("The fields ") ++ ("password")) ++
          ((" do not exist on the document ") ++ ("User")))) := by
  refine ⟨rfl, rfl, rfl, fun rest => rfl⟩

/-- C2 counterexample: the binder maps the boolean form inputs false and FALSE
to true, because `bool(value)` on a string only tests non-emptiness; the claim
requires every string other than case-insensitive true to coerce to false. -/
theorem C2_counterexample :
    bindOneCreate emptyStore ("products") [] ("is_active") ("false") =
      Except.ok [(("is_active"), Value.b true)] ∧
    bindOneUpdate emptyStore ("products") [] ("is_active") ("FALSE") =
      Except.ok [(("is_active"), Value.b true)] := by
  constructor <;> rfl

/-- C2 amended: a boolean form field is coerced by Python truthiness of the
string: the empty string becomes false and every non-empty string, including
false, becomes true (so true and TRUE also become true). -/
theorem C2_amended_bool_truthiness (st : Store) (m f v : String) (acc obj : Entity)
    (hk : fieldKind m f = some FieldKind.boolean) (hf : f ≠ ("csrf_token")) :
    bindOneCreate st m acc f v = Except.ok (Entity.set acc f (Value.b (pyBool v))) ∧
    bindOneUpdate st m obj f v = Except.ok (Entity.set obj f (Value.b (pyBool v))) ∧
    pyBool ("") = false ∧ (∀ w, w ≠ ("") → pyBool w = true) := by
  refine ⟨?_, ?_, by decide, ?_⟩
  · simp [bindOneCreate, hf, hk]
  · simp [bindOneUpdate, hf, hk]
  · intro w hw
    simp [pyBool, hw]

/-- C2 witness: the amended rule applied to the boolean product field
is_featured with input TRUE. -/
theorem C2_witness :
    bindOneCreate emptyStore ("products") [] ("is_featured") ("TRUE") =
      Except.ok (Entity.set [] ("is_featured") (Value.b (pyBool ("TRUE")))) :=
  (C2_amended_bool_truthiness emptyStore ("products") ("is_featured") ("TRUE") [] []
    (by decide) (by decide)).1

/-- C6 counterexample: the list-of-strings field tags receives no comma
splitting at all; the input binds to the raw string, not to the claimed list,
and empty input binds to the empty raw string, not to an empty list. -/
theorem C6_counterexample :
    bindOneCreate emptyStore ("products") [] ("tags") ("a, b ,,c") =
      Except.ok [(("tags"), Value.s ("a, b ,,c"))] ∧
    Value.s ("a, b ,,c") ≠ Value.strList [("a"), ("b"), ("c")] ∧
    bindOneCreate emptyStore ("products") [] ("tags") ("") =
      Except.ok [(("tags"), Value.s (""))] := by
  refine ⟨rfl, by decide, rfl⟩

/-- C6 amended: list-of-strings fields fall through the isinstance dispatch to
the default branch, so the binder stores the raw comma-separated input string
unchanged, at create and at update alike; no splitting, trimming or dropping
of empty entries happens. -/
theorem C6_amended_raw_list_fields (st : Store) (v : String) (acc obj : Entity) :
    bindOneCreate st ("products") acc ("tags") v =
      Except.ok (Entity.set acc ("tags") (Value.s v)) ∧
    bindOneUpdate st ("products") obj ("tags") v =
      Except.ok (Entity.set obj ("tags") (Value.s v)) := by
  constructor <;> rfl

def catC1 : Entity :=
  [(("id"), Value.s ("c1")), (("name"), Value.s ("Electronics")),
   (("slug"), Value.s ("electronics"))]

def prodP1 : Entity :=
  [(("id"), Value.s ("p1")), (("name"), Value.s ("Phone")),
   (("category"), Value.ref ("categories") ("c1"))]

def c5Store : Store :=
  { emptyStore with
      categories := [catC1]
      products := [prodP1]
      users := [adminRoot]
      sessions := [adminSess] }

/-- C5 counterexample: an admin update of a product that submits an empty
category value succeeds and leaves the store, the stored category reference
included, completely unchanged; the reference is not cleared as claimed. -/
theorem C5_counterexample :
    admin_model_update c5Store 100 ("sa") ("products") ("p1") [(("category"), (""))] =
      (AdminResult.redirectList ("products"), c5Store) ∧
    Entity.get? prodP1 ("category") = some (Value.ref ("categories") ("c1")) := by
  refine ⟨by decide, by decide⟩

/-- C5 amended: a non-empty reference value is resolved by id lookup through
the fixed table (category to Category on products, user to Identity on
orders); an empty reference value is omitted at creation, and at update it
leaves the existing reference unchanged rather than clearing it. -/
theorem C5_amended_reference_binding (st : Store) (m f : String) (obj acc : Entity)
    (hk : fieldKind m f = some FieldKind.reference) (hf : f ≠ ("csrf_token")) :
    bindOneUpdate st m obj f ("") = Except.ok obj ∧
    bindOneCreate st m acc f ("") = Except.ok acc ∧
    (∀ v e, ¬ v = ("") → findById st.categories v = some e →
        bindOneUpdate st ("products") obj ("category") v =
          Except.ok (Entity.set obj ("category") (Value.ref ("categories") (Entity.id e)))) ∧
    (∀ v e, ¬ v = ("") → findById st.users v = some e →
        bindOneUpdate st ("orders") obj ("user") v =
          Except.ok (Entity.set obj ("user") (Value.ref ("users") (Entity.id e)))) := by
  refine ⟨?_, ?_, ?_, ?_⟩
  · simp [bindOneUpdate, hf, hk]
  · simp [bindOneCreate, hf, hk]
  · intro v e hv he
    simp [bindOneUpdate, fieldKind, productField, kindOf, objectsGet, hv, he]
  · intro v e hv he
    simp [bindOneUpdate, fieldKind, orderField, kindOf, objectsGet, hv, he]

/-- C5 witness: the amended empty-value rule on a concrete product whose
category reference stays in place. -/
theorem C5_witness :
    bindOneUpdate c5Store ("products") prodP1 ("category") ("") = Except.ok prodP1 :=
  (C5_amended_reference_binding c5Store ("products") ("category") prodP1 []
    (by decide) (by decide)).1

def c7Partial : Entity := Entity.set prodP1 ("name") (Value.s ("N2"))

/-- C7 counterexample: when a reference lookup fails during an update, the
bind does abort without persisting, but the re-rendered context carries the
error message and the partially mutated in-memory object only — its form_data
component is none, so the original string form values are not surfaced,
contrary to the claim; the object even already holds the coerced name N2
instead of the original values. -/
theorem C7_counterexample :
    admin_model_update c5Store 100 ("sa") ("products") ("p1")
        [(("name"), ("N2")), (("category"), ("missing"))] =
      (AdminResult.page ⟨("Category matching query does not exist."), some c7Partial, none⟩,
       c5Store) ∧
    Entity.getStr c7Partial ("name") = ("N2") := by
  refine ⟨by decide, by decide⟩

/-- C7 amended: a failed reference-field id lookup aborts the whole bind with
a descriptive not-found error and nothing persisted, at create and update
alike; the original string form values are re-surfaced only by the create
route, while the update route hands the partially mutated in-memory object to
the template instead. -/
theorem C7_amended_lookup_failure_aborts (st : Store) (now : Nat) (sid oid v : String) (p : Entity)
    (hv : SessionManager.verify_session st now sid (some ("admin")) = (true, st))
    (hp : findById st.products oid = some p)
    (hvne : ¬ v = (""))
    (hmiss : findById st.categories v = none) :
    admin_model_update st now sid ("products") oid [(("category"), v)] =
      (AdminResult.page ⟨("Category matching query does not exist."), some p, none⟩, st) ∧
    admin_model_create st now sid ("products") [(("category"), v)] =
      (AdminResult.page ⟨("Category matching query does not exist."), none,
        some [(("category"), v)]⟩, st) := by
  constructor
  · simp [admin_model_update, hv, adminModelNames, Store.coll, hp, bindUpdateLoop,
      bindOneUpdate, fieldKind, productField, kindOf, objectsGet, hvne, hmiss]
  · simp [admin_model_create, hv, adminModelNames, bindCreateLoop,
      bindOneCreate, fieldKind, productField, kindOf, objectsGet, hvne, hmiss]

/-- C7 witness: the amended abort rule at a concrete store, product and
unknown category id. -/
theorem C7_witness :
    admin_model_update c5Store 100 ("sa") ("products") ("p1") [(("category"), ("nope"))] =
      (AdminResult.page ⟨("Category matching query does not exist."), some prodP1, none⟩,
       c5Store) :=
  (C7_amended_lookup_failure_aborts c5Store 100 ("sa") ("p1") ("nope") prodP1
    (by decide) (by decide) (by decide) (by decide)).1

/-- Writing a collection back never touches the sessions collection. -/
theorem sessions_setColl (st : Store) (m : String) (l : List Entity) :
    (Store.setColl st m l).sessions = st.sessions := by
  unfold Store.setColl
  split_ifs <;> rfl

def c3User : Entity :=
  [(("id"), Value.s ("u1")), (("username"), Value.s ("alice")),
   (("email"), Value.s ("alice@example.com")),
   (("password_hash"), Value.s (generate_password_hash ("alicepw"))),
   (("is_active"), Value.b true), (("user_type"), Value.s ("user"))]

def c3UserSess : SessionRec :=
  ⟨("su1"), some ("u1"), ("user"), true, [(("user_type"), ("user"))], 0, 86400⟩

def c3Store : Store :=
  { emptyStore with
      users := [adminRoot, c3User]
      sessions := [adminSess, c3UserSess] }

def c3UserAfter : Entity := Entity.set c3User ("user_type") (Value.s ("admin"))

/-- C3 counterexample: an admin update that raises the privilege marker of a
user from user to admin succeeds, yet the active session of that user keeps
its old class user and its old payload user_type=user — the session is not
rewritten to match the new privilege, contrary to the claim. -/
theorem C3_counterexample :
    admin_model_update c3Store 100 ("sa") ("users") ("u1")
        [(("user_type"), ("admin"))] =
      (AdminResult.redirectList ("users"),
       { c3Store with users := [adminRoot, c3UserAfter] }) ∧
    Entity.getStr c3UserAfter ("user_type") = ("admin") ∧
    findSession ({ c3Store with users := [adminRoot, c3UserAfter] }) ("su1") = some c3UserSess ∧
    c3UserSess.session_type = ("user") ∧
    c3UserSess.user_data = [(("user_type"), ("user"))] := by
  refine ⟨by decide, by decide, by decide, by decide, by decide⟩

/-- C3 amended: the admin update binder performs no session maintenance at
all: whenever the admin session guard passes, the sessions collection after
any model update — privilege-changing user updates included — is exactly the
sessions collection before it; no session class or payload is rewritten. -/
theorem C3_amended_sessions_untouched (st : Store) (now : Nat) (sid m oid : String)
    (form : List (String × String))
    (hv : SessionManager.verify_session st now sid (some ("admin")) = (true, st)) :
    ((admin_model_update st now sid m oid form).2).sessions = st.sessions := by
  simp only [admin_model_update, hv]
  simp only [Bool.not_true, Bool.false_eq_true, if_false]
  split_ifs with hm <;>
    first
      | rfl
      | (cases hfind : findById (Store.coll st m) oid with
         | none => simp [hfind]
         | some obj0 =>
           cases hloop : bindUpdateLoop st m obj0 form with
           | ok obj2 => simp [hfind, hloop, sessions_setColl]
           | error ep => simp [hfind, hloop])

/-- C3 witness: the amended frame property at the concrete privilege-raising
update of the counterexample scenario. -/
theorem C3_witness :
    ((admin_model_update c3Store 100 ("sa") ("users") ("u1")
        [(("user_type"), ("admin"))]).2).sessions = c3Store.sessions :=
  C3_amended_sessions_untouched c3Store 100 ("sa") ("users") ("u1")
    [(("user_type"), ("admin"))] (by decide)

def c8Store : Store := { emptyStore with users := [adminRoot] }

/-- C8 counterexample: a successful administrator login creates an
admin-tagged session but leaves the users collection — and hence the
last_login timestamp of the identity, which is still absent — completely
unchanged, contrary to the claim that every successful login updates
last_login. -/
theorem C8_counterexample :
    admin_login c8Store 50 ("s9") ("root") ("rootpw") =
      (AdminLoginResult.redirect ("s9"),
       { c8Store with sessions :=
          [⟨("s9"), some ("a1"), ("admin"), true, [(("user_type"), ("admin"))], 50,
            50 + 24 * 3600⟩] }) ∧
    Entity.get? adminRoot ("last_login") = none := by
  refine ⟨by decide, by decide⟩

/-- C8 amended: a successful ordinary-user login stamps last_login with the
login time and creates a session whose payload carries user_type=user, while
a successful administrator login creates a session whose payload carries
user_type=admin but writes nothing to the identity, so its last_login is not
updated. -/
theorem C8_amended_login_effects (st : Store) (now : Nat) (nid uname pw : String) :
    (∀ u, UserAuth.verify_credentials st uname pw = some u →
        login_user st now nid uname pw =
          (UserLoginResult.redirect nid,
           { st with
               users := replaceById st.users (Entity.id u)
                 (Entity.set u ("last_login") (Value.time now))
               sessions := st.sessions ++
                 [⟨nid, some (Entity.id u), ("user"), true, [(("user_type"), ("user"))], now,
                   now + 24 * 3600⟩] })) ∧
    (∀ u, AdminAuth.login st uname pw = Except.ok true →
        st.users.find? (fun x => Entity.getStr x ("username") == uname) = some u →
        admin_login st now nid uname pw =
          (AdminLoginResult.redirect nid,
           { st with sessions := st.sessions ++
               [⟨nid, some (Entity.id u), ("admin"), true, [(("user_type"), ("admin"))], now,
                 now + 24 * 3600⟩] })) := by
  constructor
  · intro u h
    simp [login_user, h, UserAuth.create_session, SessionManager.create_session]
  · intro u hl hf
    simp [admin_login, hl, hf, AdminAuth.create_session, SessionManager.create_session]

def c8Carol : Entity :=
  [(("id"), Value.s ("u2")), (("username"), Value.s ("carol")),
   (("email"), Value.s ("carol@example.com")),
   (("password_hash"), Value.s (generate_password_hash ("carolpw"))),
   (("is_active"), Value.b true), (("user_type"), Value.s ("user"))]

def c8UserStore : Store := { emptyStore with users := [c8Carol] }

/-- C8 witness: the amended user-login rule at a concrete active user with the
correct password. -/
theorem C8_witness :
    login_user c8UserStore 7 ("n2") ("carol") ("carolpw") =
      (UserLoginResult.redirect ("n2"),
       { c8UserStore with
           users := replaceById c8UserStore.users (Entity.id c8Carol)
             (Entity.set c8Carol ("last_login") (Value.time 7))
           sessions := c8UserStore.sessions ++
             [⟨("n2"), some (Entity.id c8Carol), ("user"), true, [(("user_type"), ("user"))], 7,
               7 + 24 * 3600⟩] }) :=
  (C8_amended_login_effects c8UserStore 7 ("n2") ("carol") ("carolpw")).1 c8Carol (by decide)
